import Mathlib

/-!
# Verification of the evex-rakutenai streaming chat client

Shallow embedding of `src/chat.ts` (which contains two revisions of the
`Thread` class: a first implementation, lines 1-330, with one shared inbound
stream and automatic reconnection, and a second implementation, lines
331-629, with a per-request registry `#messageStreams` fed by the
`#startDistributing` loop), together with the wire types of
`src/unnamed/part_000` (`ChatResponseStream`, `ChatRequestMessage`).

Suffix `1` marks definitions embedded from the first implementation,
suffix `2` those from the second.
-/

namespace RakutenAI

/-! ## Inbound wire model (`ChatResponseStream`) -/

/-- One entry of `outputImageData.imageGens` (src/unnamed/part_000, lines
56-68).  `preview` is optional on the wire (`preview?: string`). -/
structure ImageGen where
  thumbnail : String
  preview : Option String
  index : Nat
  total : Nat
  width : Nat
  height : Nat
deriving DecidableEq, Repr

/-- One entry of `payload.data.contents` of an inbound CONVERSATION frame.
`textData.text` is modelled as `Option String` because both translators read
it with `?? ''` and compare it against sentinel literals.  `other` stands
for any `contentType` the translators do not recognise (they log a warning
and yield nothing for it). -/
inductive InContent where
  | text (t : Option String)
  | summaryText (t : Option String)
  | outputImage (imageGens : List ImageGen)
  | other (contentType : String)
deriving DecidableEq, Repr

/-- `payload.action` of an inbound CONVERSATION frame.  The code compares it
against the literals 'AI_ANSWER' and 'EVENT' and warns on anything else. -/
inductive ConvAction where
  | aiAnswer
  | event
  | otherAction (s : String)
deriving DecidableEq, Repr

/-- `payload.data.chatResponseStatus` of an inbound CONVERSATION frame. -/
inductive ConvStatus where
  | append
  | toolCall
  | done
  | otherStatus (s : String)
deriving DecidableEq, Repr

/-- The fields of `payload.data` that the code reads: the status and the
content list.  (The wire object also carries `reqMessageId`, `threadId`,
`trace`, ... — no line of `src/chat.ts` reads them, so they are omitted.) -/
structure ConvData where
  status : ConvStatus
  contents : List InContent
deriving DecidableEq, Repr

/-- `webSocket.error` of an inbound ERROR frame (first implementation,
src/chat.ts lines 312-317 spreads it into the yielded event). -/
structure ErrorInfo where
  code : String
  message : String
  traceId : String
  traceUrl : String
  threadId : String
deriving DecidableEq, Repr

/-- One parsed inbound frame (`ChatResponseStream.webSocket`).
`conversation` and `error` carry `metadata.messageId`, the field the
second implementation's distributor routes by (src/chat.ts line 430);
`notification` payloads are opaque to the client and modelled as a raw
string; `otherType` stands for an unrecognised `webSocket.type`. -/
inductive InFrame where
  | ack
  | conversation (metaMessageId : String) (action : ConvAction) (data : ConvData)
  | notification (data : String)
  | error (metaMessageId : String) (e : ErrorInfo)
  | otherType (metaMessageId : String) (s : String)
deriving DecidableEq, Repr

/-! ## Caller-facing events

The union yielded by `sendMessage`.  The first implementation's generator
(src/chat.ts lines 146-169) can produce every variant; the second
implementation's (lines 483-488) only `textDelta`, `reasoningStart`,
`reasoningDelta` and `done`. -/

/-- A semantic event yielded by `sendMessage`. -/
inductive Event where
  | ack
  | textDelta (text : String)
  | reasoningStart
  | reasoningDelta (text : String)
  | done
  | notification (data : String)
  | disconnected
  | toolCall (data : List InContent)
  | imageThumbnail (url : String)
  | image (url : String)
  | error (e : ErrorInfo)
deriving DecidableEq, Repr

/-- The two sentinel literals of the EVENT channel (src/chat.ts lines 249
and 254 / 569 and 574). -/
def thinkingSentinel : String := "思考中..."

/-- See `thinkingSentinel`. -/
def searchingSentinel : String := "検索中..."

/-- JavaScript truthiness of `img.preview` (src/chat.ts line 272:
`if(img.preview)`): an absent field and the empty string are falsy. -/
def strTruthy : Option String → Bool
  | none => false
  | some s => s ≠ ""

/-! ## Per-content dispatch of the translators -/

/-- Content dispatch of the first implementation's `sendMessage` read loop
(src/chat.ts lines 246-281), for one content item of an APPEND chunk whose
action is `a`. -/
def processContent1 (a : ConvAction) : InContent → List Event
  | .text t =>
      if a = ConvAction.event then
        if t = some thinkingSentinel then [Event.reasoningStart]
        else if t = some searchingSentinel then [] -- skip
        else []                                    -- trailing `continue`
      else [Event.textDelta (t.getD "")]
  | .summaryText t => [Event.reasoningDelta (t.getD "")]
  | .outputImage gens =>
      match gens.head? with
      | none => []                                 -- `imageGens[0]` is undefined
      | some img =>
          Event.imageThumbnail img.thumbnail ::
            (if strTruthy img.preview then [Event.image (img.preview.getD "")] else [])
  | .other _ => []                                 -- console.warn, no event

/-- Content dispatch of the second implementation's `sendMessage` read loop
(src/chat.ts lines 566-595): identical to the first for TEXT and
SUMMARY_TEXT, but OUTPUT_IMAGE has no branch there and falls into the
warn-and-skip default. -/
def processContent2 (a : ConvAction) : InContent → List Event
  | .text t =>
      if a = ConvAction.event then
        if t = some thinkingSentinel then [Event.reasoningStart]
        else if t = some searchingSentinel then [] -- skip
        else []
      else [Event.textDelta (t.getD "")]
  | .summaryText t => [Event.reasoningDelta (t.getD "")]
  | .outputImage _ => []                           -- console.warn, no event
  | .other _ => []

/-! ## Per-frame dispatch of the translators

Each returns the events yielded for the frame together with a flag that is
`true` exactly when the read loop `return`s after the frame (terminal
frame). -/

/-- Frame dispatch of the first implementation's `sendMessage` read loop
(src/chat.ts lines 235-320). -/
def frameEvents1 : InFrame → List Event × Bool
  | .ack => ([Event.ack], false)
  | .conversation _ a d =>
      match a with
      | .otherAction _ => ([], false)              -- warn: non-AI_ANSWER conversation
      | _ =>
          match d.status with
          | .append => (d.contents.flatMap (processContent1 a), false)
          | .toolCall => ([Event.toolCall d.contents], false)
          | .done => ([Event.done], true)
          | .otherStatus _ => ([], false)          -- warn: unsupported status
  | .notification dta => ([Event.notification dta], false)
  | .error _ e => ([Event.error e], true)
  | .otherType _ _ => ([], false)                  -- warn: non-conversation message

/-- Frame dispatch of the second implementation's `sendMessage` read loop
(src/chat.ts lines 557-613).  Note that TOOL_CALL chunks are handled by the
same branch as APPEND (`=== 'APPEND' || === 'TOOL_CALL'`, lines 561-564),
and that ACK/NOTIFICATION/ERROR frames have no `payload.action` equal to
AI_ANSWER or EVENT so they fall into the warn branch. -/
def frameEvents2 : InFrame → List Event × Bool
  | .conversation _ a d =>
      match a with
      | .otherAction _ => ([], false)
      | _ =>
          match d.status with
          | .append | .toolCall => (d.contents.flatMap (processContent2 a), false)
          | .done => ([Event.done], true)
          | .otherStatus _ => ([], false)
  | _ => ([], false)

/-! ## The translators as functions of a finite channel history

A request's channel history is the list of frames its reads returned,
followed by how the channel ended: `closed` (the reader reports
`done: true`) or `errored` (the pending `read()` rejects, so the `await`
throws inside the generator). -/

/-- How a request's inbound channel ends once its frames are exhausted. -/
inductive EndKind where
  | closed
  | errored
deriving DecidableEq, Repr

/-- Whether the generator returned normally or propagated an exception. -/
inductive Outcome where
  | returned
  | threw
deriving DecidableEq, Repr

/-- The event sequence of one first-implementation `sendMessage` call, as a
function of the frames its reads consumed and of the channel ending
(src/chat.ts lines 229-321): exhaustion with `done: true` yields
`disconnected` and returns (lines 231-234); a rejected read throws out of
the generator. -/
def translate1 : List InFrame → EndKind → List Event × Outcome
  | [], .closed => ([Event.disconnected], Outcome.returned)
  | [], .errored => ([], Outcome.threw)
  | f :: rest, e =>
      let (evs, stop) := frameEvents1 f
      if stop then (evs, Outcome.returned)
      else
        let (evs', o) := translate1 rest e
        (evs ++ evs', o)

/-- The event sequence of one second-implementation `sendMessage` call
(src/chat.ts lines 552-618): exhaustion with `done: true` just `break`s
(line 556) — no event is yielded; a rejected read throws (the `finally`
block releases the reader and deletes the registry entry, then the
exception propagates). -/
def translate2 : List InFrame → EndKind → List Event × Outcome
  | [], .closed => ([], Outcome.returned)
  | [], .errored => ([], Outcome.threw)
  | f :: rest, e =>
      let (evs, stop) := frameEvents2 f
      if stop then (evs, Outcome.returned)
      else
        let (evs', o) := translate2 rest e
        (evs ++ evs', o)

/-! ## The demultiplexer (second implementation, `#startDistributing`)

src/chat.ts lines 419-458.  The registry `#messageStreams` maps a
correlation id to the controller of that request's private stream; for the
routing decision only the set of live ids matters, so the registry is
modelled as the list of live ids and a delivery is recorded as the pair
`(id, frame)` of the channel that received the frame. -/

/-- The id an inbound frame is routed by: NOTIFICATION and ACK frames are
skipped before the lookup (line 426), every other frame is looked up by its
`metadata.messageId` (line 430). -/
def frameRouteId : InFrame → Option String
  | .ack => none
  | .notification _ => none
  | .conversation id _ _ => some id
  | .error id _ => some id
  | .otherType id _ => some id

/-- The distributor's terminal-frame test (lines 436-440): an AI_ANSWER or
EVENT conversation chunk whose status is DONE.  (An ERROR frame is *not*
terminal for the distributor: its registry entry stays live.) -/
def isTerminalChunk : InFrame → Bool
  | .conversation _ a d =>
      (match a with
       | .aiAnswer | .event => true
       | .otherAction _ => false)
      &&
      (match d.status with
       | .done => true
       | _ => false)
  | _ => false

/-- One iteration of the `#startDistributing` loop (lines 423-444) on one
frame: returns the new registry and the deliveries made (channel id,
frame).  A frame whose id has no live entry is dropped without touching the
registry; a terminal chunk is delivered and then its entry is closed and
deleted (lines 441-442). -/
def demuxStep (reg : List String) (f : InFrame) : List String × List (String × InFrame) :=
  match frameRouteId f with
  | none => (reg, [])
  | some id =>
      if reg.contains id then
        if isTerminalChunk f then (reg.erase id, [(id, f)])
        else (reg, [(id, f)])
      else (reg, [])

/-- The `#startDistributing` loop over a finite prefix of the global inbound
stream, from registry `reg`: final registry and the list of all deliveries
made, in order. -/
def demuxRun (reg : List String) : List InFrame → List String × List (String × InFrame)
  | [] => (reg, [])
  | f :: rest =>
      let (r1, d1) := demuxStep reg f
      let (r2, d2) := demuxRun r1 rest
      (r2, d1 ++ d2)

/-- The `finally` block of `#startDistributing` (src/chat.ts lines
450-457), run when the global stream ends or errors: every remaining
controller is closed — its request's channel ends with `closed` — and the
registry is cleared.  Returns the cleared registry and the channel ending
delivered to each still-live request. -/
def demuxFinalize (reg : List String) : List String × List (String × EndKind) :=
  ([], reg.map (fun id => (id, EndKind.closed)))

/-! ## The connection supervisors

What the WebSocket handlers installed by the two constructors do with each
socket occurrence.  A `message` occurrence carries `some f` when
`JSON.parse` succeeds on its data and `none` when it throws; a `closeEvt`
occurrence carries the outcome of the single reconnect attempt the first
implementation makes in its `onclose` handler (the second implementation
ignores it — it never reconnects). -/

/-- One occurrence on the underlying WebSocket. -/
inductive WsEvent where
  | message (parsed : Option InFrame)
  | errorEvt
  | closeEvt (reconnectOk : Bool)
deriving DecidableEq, Repr

/-- How the global inbound stream stands after the processed occurrences. -/
inductive SupEnd where
  | running
  | errored
  | closedEnd
deriving DecidableEq, Repr

/-- The first implementation's supervisor (the `start` callback of
`#stream`, src/chat.ts lines 68-101): enqueue each parsed message; a parse
failure or an `onerror` rejects the `closed` promise and the controller is
errored (lines 94-98), ending the sequence; an `onclose` makes exactly one
reconnect attempt (line 85) — on success the loop re-arms and the sequence
continues, on failure the controller is errored.  Returns the frames
enqueued, the stream ending, and the number of reconnect attempts made. -/
def supRun1 : List WsEvent → List InFrame × SupEnd × Nat
  | [] => ([], SupEnd.running, 0)
  | WsEvent.message (some f) :: rest =>
      let (fs, e, n) := supRun1 rest
      (f :: fs, e, n)
  | WsEvent.message none :: _ => ([], SupEnd.errored, 0)
  | WsEvent.errorEvt :: _ => ([], SupEnd.errored, 0)
  | WsEvent.closeEvt true :: rest =>
      let (fs, e, n) := supRun1 rest
      (fs, e, n + 1)
  | WsEvent.closeEvt false :: _ => ([], SupEnd.errored, 1)

/-- The second implementation's supervisor (the `start` callback of
`#globalStream`, src/chat.ts lines 397-414): enqueue each parsed message; a
parse failure or an `onerror` errors the controller (lines 404, 408); an
`onclose` closes the controller (line 411) — no reconnect attempt is ever
made. -/
def supRun2 : List WsEvent → List InFrame × SupEnd × Nat
  | [] => ([], SupEnd.running, 0)
  | WsEvent.message (some f) :: rest =>
      let (fs, e, n) := supRun2 rest
      (f :: fs, e, n)
  | WsEvent.message none :: _ => ([], SupEnd.errored, 0)
  | WsEvent.errorEvt :: _ => ([], SupEnd.errored, 0)
  | WsEvent.closeEvt _ :: _ => ([], SupEnd.closedEnd, 0)

/-- The frames a well-behaved socket trace carries. -/
def wsFrames : List WsEvent → List InFrame :=
  List.filterMap (fun e =>
    match e with
    | WsEvent.message (some f) => some f
    | _ => none)

/-- Number of disconnects in a socket trace. -/
def wsCloseCount : List WsEvent → Nat :=
  List.countP (fun e =>
    match e with
    | WsEvent.closeEvt _ => true
    | _ => false)

/-- An occurrence the first implementation's supervisor survives: a parsed
message or a disconnect whose reconnect succeeds. -/
def wsGoodEvt : WsEvent → Bool
  | WsEvent.message (some _) => true
  | WsEvent.closeEvt true => true
  | _ => false

/-! ## Shared-reader consumption (first implementation)

The first implementation has a single `#streamReader` for the whole thread
(src/chat.ts line 109) and every `sendMessage` call reads it directly (line
230); which concurrent call's pending `read()` receives an inbound chunk is
decided by the FIFO order of the read calls, never by correlation id.
`assign` records, per inbound frame, the request whose read consumed it. -/

/-- The frames whose reads were won by request `owner`. -/
def sharedConsume (owner : String) (assign : List (String × InFrame)) : List InFrame :=
  (assign.filter (fun p => p.1 == owner)).map Prod.snd

/-! ## Outbound encoding (`sendMessage` request body) -/

/-- `UploadedFile` of the first implementation (src/chat.ts lines 50-55). -/
structure UploadedFile1 where
  fileId : String
  fileUrl : String
  fileName : String
  isImage : Bool
deriving DecidableEq, Repr

/-- `UploadedFile` of the second implementation (src/chat.ts lines
377-381): no `isImage` flag. -/
structure UploadedFile2 where
  fileId : String
  fileUrl : String
  fileName : String
deriving DecidableEq, Repr

/-- One item of `message.contents` passed to the first implementation's
`sendMessage`. -/
inductive OutItem1 where
  | text (t : String)
  | file (f : UploadedFile1)
deriving DecidableEq, Repr

/-- One item of `message.contents` passed to the second implementation's
`sendMessage`. -/
inductive OutItem2 where
  | text (t : String)
  | file (f : UploadedFile2)
deriving DecidableEq, Repr

/-- A content item of the outbound wire envelope
(`ChatRequestMessage.message.payload.data.contents`). -/
inductive WireContent where
  | TEXT (text : String)
  | INPUT_FILE (src resourceId name : String)
  | INPUT_IMAGE (src resourceId : String)
deriving DecidableEq, Repr

/-- The first implementation's `contents.map` in `sendMessage`
(src/chat.ts lines 186-213): a file item becomes INPUT_IMAGE when
`file.isImage` is set, INPUT_FILE otherwise. -/
def encodeContent1 : OutItem1 → WireContent
  | .text t => WireContent.TEXT t
  | .file f =>
      if f.isImage then WireContent.INPUT_IMAGE f.fileUrl f.fileId
      else WireContent.INPUT_FILE f.fileUrl f.fileId f.fileName

/-- The second implementation's `contents.map` in `sendMessage`
(src/chat.ts lines 515-535): a file item always becomes INPUT_FILE. -/
def encodeContent2 : OutItem2 → WireContent
  | .text t => WireContent.TEXT t
  | .file f => WireContent.INPUT_FILE f.fileUrl f.fileId f.fileName

/-! ## Specification predicates on event sequences -/

/-- Terminal events in the sense of the specification: `Done`, `Error`, or
`Disconnected`. -/
def Event.isTerminal : Event → Bool
  | .done => true
  | .disconnected => true
  | .error _ => true
  | _ => false

/-- Whether an event is a `ToolCall`. -/
def Event.isToolCall : Event → Bool
  | .toolCall _ => true
  | _ => false

/-- `true` iff no event of the list follows a terminal event (in
particular at most one terminal event occurs). -/
def noEventAfterTerminal : List Event → Bool
  | [] => true
  | e :: rest => if e.isTerminal then rest.isEmpty else noEventAfterTerminal rest

/-- Number of terminal events in an event list. -/
def terminalCount (evs : List Event) : Nat :=
  evs.countP (fun e => e.isTerminal)

/-- Number of `disconnected` events in an event list. -/
def disconnectedCount (evs : List Event) : Nat :=
  evs.countP (fun e => decide (e = Event.disconnected))

/-! ## Helper lemmas -/

/-- Events produced for a single APPEND content item by the first
implementation are never terminal. -/
theorem processContent1_nonterminal (a : ConvAction) (c : InContent) :
    ∀ e ∈ processContent1 a c, e.isTerminal = false := by
  intro e he
  cases c with
  | text t =>
      simp only [processContent1] at he
      split_ifs at he <;> simp at he <;> subst he <;> rfl
  | summaryText t =>
      simp only [processContent1, List.mem_singleton] at he
      subst he; rfl
  | outputImage gens =>
      cases gens with
      | nil => simp [processContent1] at he
      | cons g rest =>
          simp only [processContent1, List.head?_cons] at he
          rcases List.mem_cons.mp he with h | h
          · subst h; rfl
          · split_ifs at h <;> simp at h
            subst h; rfl
  | other s => simp [processContent1] at he

/-- Events produced for a single content item by the second implementation
are never terminal and never a `ToolCall`. -/
theorem processContent2_shape (a : ConvAction) (c : InContent) :
    ∀ e ∈ processContent2 a c, e.isTerminal = false ∧ e.isToolCall = false := by
  intro e he
  cases c with
  | text t =>
      simp only [processContent2] at he
      split_ifs at he <;> simp at he <;> subst he <;> exact ⟨rfl, rfl⟩
  | summaryText t =>
      simp only [processContent2, List.mem_singleton] at he
      subst he; exact ⟨rfl, rfl⟩
  | outputImage gens => simp [processContent2] at he
  | other s => simp [processContent2] at he

/-- A non-stopping frame yields only non-terminal events in the first
implementation. -/
theorem frameEvents1_nonterminal (f : InFrame) (h : (frameEvents1 f).2 = false) :
    ∀ e ∈ (frameEvents1 f).1, e.isTerminal = false := by
  intro e he
  cases f with
  | ack =>
      simp only [frameEvents1, List.mem_singleton] at he
      subst he; rfl
  | conversation id a d =>
      obtain ⟨st, cs⟩ := d
      cases a with
      | otherAction s => simp [frameEvents1] at he
      | aiAnswer =>
          cases st with
          | append =>
              simp only [frameEvents1, List.mem_flatMap] at he
              obtain ⟨c, _, hec⟩ := he
              exact processContent1_nonterminal _ c e hec
          | toolCall =>
              simp only [frameEvents1, List.mem_singleton] at he
              subst he; rfl
          | done => simp [frameEvents1] at h
          | otherStatus s => simp [frameEvents1] at he
      | event =>
          cases st with
          | append =>
              simp only [frameEvents1, List.mem_flatMap] at he
              obtain ⟨c, _, hec⟩ := he
              exact processContent1_nonterminal _ c e hec
          | toolCall =>
              simp only [frameEvents1, List.mem_singleton] at he
              subst he; rfl
          | done => simp [frameEvents1] at h
          | otherStatus s => simp [frameEvents1] at he
  | notification d =>
      simp only [frameEvents1, List.mem_singleton] at he
      subst he; rfl
  | error id err => simp [frameEvents1] at h
  | otherType id s => simp [frameEvents1] at he

/-- A stopping frame yields exactly one event in the first implementation,
and that event is terminal. -/
theorem frameEvents1_stop (f : InFrame) (h : (frameEvents1 f).2 = true) :
    ∃ t, (frameEvents1 f).1 = [t] ∧ t.isTerminal = true := by
  cases f with
  | ack => simp [frameEvents1] at h
  | conversation id a d =>
      obtain ⟨st, cs⟩ := d
      cases a with
      | otherAction s => simp [frameEvents1] at h
      | aiAnswer =>
          cases st with
          | append => simp [frameEvents1] at h
          | toolCall => simp [frameEvents1] at h
          | done => exact ⟨Event.done, rfl, rfl⟩
          | otherStatus s => simp [frameEvents1] at h
      | event =>
          cases st with
          | append => simp [frameEvents1] at h
          | toolCall => simp [frameEvents1] at h
          | done => exact ⟨Event.done, rfl, rfl⟩
          | otherStatus s => simp [frameEvents1] at h
  | notification d => simp [frameEvents1] at h
  | error id err => exact ⟨Event.error err, rfl, rfl⟩
  | otherType id s => simp [frameEvents1] at h

/-- A non-stopping frame yields only non-terminal events in the second
implementation. -/
theorem frameEvents2_nonterminal (f : InFrame) (h : (frameEvents2 f).2 = false) :
    ∀ e ∈ (frameEvents2 f).1, e.isTerminal = false := by
  intro e he
  cases f with
  | conversation id a d =>
      obtain ⟨st, cs⟩ := d
      cases a with
      | otherAction s => simp [frameEvents2] at he
      | aiAnswer =>
          cases st with
          | append =>
              simp only [frameEvents2, List.mem_flatMap] at he
              obtain ⟨c, _, hec⟩ := he
              exact (processContent2_shape _ c e hec).1
          | toolCall =>
              simp only [frameEvents2, List.mem_flatMap] at he
              obtain ⟨c, _, hec⟩ := he
              exact (processContent2_shape _ c e hec).1
          | done => simp [frameEvents2] at h
          | otherStatus s => simp [frameEvents2] at he
      | event =>
          cases st with
          | append =>
              simp only [frameEvents2, List.mem_flatMap] at he
              obtain ⟨c, _, hec⟩ := he
              exact (processContent2_shape _ c e hec).1
          | toolCall =>
              simp only [frameEvents2, List.mem_flatMap] at he
              obtain ⟨c, _, hec⟩ := he
              exact (processContent2_shape _ c e hec).1
          | done => simp [frameEvents2] at h
          | otherStatus s => simp [frameEvents2] at he
  | ack => simp [frameEvents2] at he
  | notification d => simp [frameEvents2] at he
  | error id err => simp [frameEvents2] at he
  | otherType id s => simp [frameEvents2] at he

/-- A stopping frame yields exactly `[done]` in the second implementation
(the only terminal frame its read loop recognises). -/
theorem frameEvents2_stop (f : InFrame) (h : (frameEvents2 f).2 = true) :
    (frameEvents2 f).1 = [Event.done] := by
  cases f with
  | conversation id a d =>
      obtain ⟨st, cs⟩ := d
      cases a with
      | otherAction s => simp [frameEvents2] at h
      | aiAnswer =>
          cases st with
          | append => simp [frameEvents2] at h
          | toolCall => simp [frameEvents2] at h
          | done => rfl
          | otherStatus s => simp [frameEvents2] at h
      | event =>
          cases st with
          | append => simp [frameEvents2] at h
          | toolCall => simp [frameEvents2] at h
          | done => rfl
          | otherStatus s => simp [frameEvents2] at h
  | ack => simp [frameEvents2] at h
  | notification d => simp [frameEvents2] at h
  | error id err => simp [frameEvents2] at h
  | otherType id s => simp [frameEvents2] at h

/-- No event the second implementation's read loop yields for a frame is a
`ToolCall` or a `Disconnected`. -/
theorem frameEvents2_shape (f : InFrame) :
    ∀ e ∈ (frameEvents2 f).1, e.isToolCall = false ∧ e ≠ Event.disconnected := by
  intro e he
  cases h : (frameEvents2 f).2 with
  | true =>
      rw [frameEvents2_stop f h] at he
      simp at he
      subst he
      exact ⟨rfl, by simp⟩
  | false =>
      have ht := frameEvents2_nonterminal f h e he
      refine ⟨?_, ?_⟩
      · cases f with
        | conversation id a d =>
            obtain ⟨st, cs⟩ := d
            cases a with
            | otherAction s => simp [frameEvents2] at he
            | aiAnswer =>
                cases st with
                | append =>
                    simp only [frameEvents2, List.mem_flatMap] at he
                    obtain ⟨c, _, hec⟩ := he
                    exact (processContent2_shape _ c e hec).2
                | toolCall =>
                    simp only [frameEvents2, List.mem_flatMap] at he
                    obtain ⟨c, _, hec⟩ := he
                    exact (processContent2_shape _ c e hec).2
                | done => simp [frameEvents2] at h
                | otherStatus s => simp [frameEvents2] at he
            | event =>
                cases st with
                | append =>
                    simp only [frameEvents2, List.mem_flatMap] at he
                    obtain ⟨c, _, hec⟩ := he
                    exact (processContent2_shape _ c e hec).2
                | toolCall =>
                    simp only [frameEvents2, List.mem_flatMap] at he
                    obtain ⟨c, _, hec⟩ := he
                    exact (processContent2_shape _ c e hec).2
                | done => simp [frameEvents2] at h
                | otherStatus s => simp [frameEvents2] at he
        | ack => simp [frameEvents2] at he
        | notification d => simp [frameEvents2] at he
        | error id err => simp [frameEvents2] at he
        | otherType id s => simp [frameEvents2] at he
      · intro hd
        subst hd
        simp [Event.isTerminal] at ht

/-- Appending after a list of non-terminal events does not change the
`noEventAfterTerminal` check. -/
theorem noEventAfterTerminal_append (l evs : List Event)
    (h : ∀ e ∈ l, e.isTerminal = false) :
    noEventAfterTerminal (l ++ evs) = noEventAfterTerminal evs := by
  induction l with
  | nil => rfl
  | cons x l ih =>
      have hx : x.isTerminal = false := h x (by simp)
      simp only [List.cons_append, noEventAfterTerminal, hx]
      simp only [Bool.false_eq_true, if_false]
      exact ih (fun e he => h e (by simp [he]))

/-- If no event follows a terminal event then at most one terminal event
occurs. -/
theorem noEventAfterTerminal_count (evs : List Event)
    (h : noEventAfterTerminal evs = true) : terminalCount evs ≤ 1 := by
  induction evs with
  | nil => simp [terminalCount]
  | cons x l ih =>
      simp only [noEventAfterTerminal] at h
      by_cases hx : x.isTerminal = true
      · rw [if_pos hx] at h
        have : l = [] := List.isEmpty_iff.mp h
        subst this
        simp [terminalCount, List.countP_cons, hx]
      · rw [if_neg hx] at h
        have hx' : x.isTerminal = false := by
          cases hxx : x.isTerminal
          · rfl
          · exact absurd hxx hx
        simp only [terminalCount, List.countP_cons, hx']
        simpa [terminalCount] using ih h

/-- The first implementation's event sequence never yields an event after a
terminal event. -/
theorem translate1_noEventAfterTerminal (fs : List InFrame) (e : EndKind) :
    noEventAfterTerminal (translate1 fs e).1 = true := by
  induction fs with
  | nil => cases e <;> rfl
  | cons f rest ih =>
      rcases hfe : frameEvents1 f with ⟨evs, stop⟩
      cases stop with
      | true =>
          obtain ⟨t, ht, htt⟩ := frameEvents1_stop f (by rw [hfe])
          have hevs : evs = [t] := by rw [hfe] at ht; exact ht
          subst hevs
          simp [translate1, hfe, noEventAfterTerminal, htt]
      | false =>
          have hnt : ∀ x ∈ evs, x.isTerminal = false := by
            intro x hx
            exact frameEvents1_nonterminal f (by rw [hfe]) x (by rw [hfe]; exact hx)
          rcases htr : translate1 rest e with ⟨evs', o⟩
          simp only [translate1, hfe, htr]
          simp only [Bool.false_eq_true, if_false]
          rw [noEventAfterTerminal_append evs evs' hnt]
          have := ih
          rw [htr] at this
          exact this

/-- The second implementation's event sequence never yields an event after
a terminal event. -/
theorem translate2_noEventAfterTerminal (fs : List InFrame) (e : EndKind) :
    noEventAfterTerminal (translate2 fs e).1 = true := by
  induction fs with
  | nil => cases e <;> rfl
  | cons f rest ih =>
      rcases hfe : frameEvents2 f with ⟨evs, stop⟩
      cases stop with
      | true =>
          have ht := frameEvents2_stop f (by rw [hfe])
          have hevs : evs = [Event.done] := by rw [hfe] at ht; exact ht
          subst hevs
          simp [translate2, hfe, noEventAfterTerminal, Event.isTerminal]
      | false =>
          have hnt : ∀ x ∈ evs, x.isTerminal = false := by
            intro x hx
            exact frameEvents2_nonterminal f (by rw [hfe]) x (by rw [hfe]; exact hx)
          rcases htr : translate2 rest e with ⟨evs', o⟩
          simp only [translate2, hfe, htr]
          simp only [Bool.false_eq_true, if_false]
          rw [noEventAfterTerminal_append evs evs' hnt]
          have := ih
          rw [htr] at this
          exact this

/-- Characterization of a first-implementation request whose channel closes
without a terminal frame: every frame's events are yielded in order, then
exactly `disconnected` is appended and the generator returns. -/
theorem translate1_closed_eq (fs : List InFrame)
    (h : ∀ f ∈ fs, (frameEvents1 f).2 = false) :
    translate1 fs EndKind.closed =
      (fs.flatMap (fun f => (frameEvents1 f).1) ++ [Event.disconnected],
        Outcome.returned) := by
  induction fs with
  | nil => rfl
  | cons f rest ih =>
      rcases hfe : frameEvents1 f with ⟨evs, stop⟩
      have hstop : stop = false := by
        have := h f (by simp)
        rw [hfe] at this
        exact this
      subst hstop
      have ih' := ih (fun g hg => h g (by simp [hg]))
      simp [translate1, hfe, ih', List.flatMap_cons]

/-- The first implementation yields exactly one terminal event whenever the
channel ends without a thrown error. -/
theorem translate1_closed_terminalCount (fs : List InFrame) :
    terminalCount (translate1 fs EndKind.closed).1 = 1 := by
  induction fs with
  | nil =>
      simp [translate1, terminalCount, List.countP_cons, Event.isTerminal]
  | cons f rest ih =>
      rcases hfe : frameEvents1 f with ⟨evs, stop⟩
      cases stop with
      | true =>
          obtain ⟨t, ht, htt⟩ := frameEvents1_stop f (by rw [hfe])
          have hevs : evs = [t] := by rw [hfe] at ht; exact ht
          subst hevs
          simp [translate1, hfe, terminalCount, List.countP_cons, htt]
      | false =>
          have hz : evs.countP (fun e => e.isTerminal) = 0 := by
            refine List.countP_eq_zero.mpr ?_
            intro x hx
            have := frameEvents1_nonterminal f (by rw [hfe]) x (by rw [hfe]; exact hx)
            simp [this]
          rcases htr : translate1 rest EndKind.closed with ⟨evs', o⟩
          simp only [translate1, hfe, htr]
          simp only [Bool.false_eq_true, if_false]
          have := ih
          rw [htr] at this
          simp only [terminalCount] at this ⊢
          rw [List.countP_append, hz, this]

/-- The second implementation never yields a `disconnected` event. -/
theorem translate2_no_disconnected (fs : List InFrame) (e : EndKind) :
    Event.disconnected ∉ (translate2 fs e).1 := by
  induction fs with
  | nil => cases e <;> simp [translate2]
  | cons f rest ih =>
      rcases hfe : frameEvents2 f with ⟨evs, stop⟩
      have hevs : Event.disconnected ∉ evs := by
        intro hx
        exact (frameEvents2_shape f Event.disconnected (by rw [hfe]; exact hx)).2 rfl
      cases stop with
      | true => simp only [translate2, hfe, if_pos]; simpa using hevs
      | false =>
          rcases htr : translate2 rest e with ⟨evs', o⟩
          simp only [translate2, hfe, htr]
          simp only [Bool.false_eq_true, if_false]
          intro hx
          rcases List.mem_append.mp hx with hx | hx
          · exact hevs hx
          · have := ih
            rw [htr] at this
            exact this hx

/-- The second implementation never yields a `ToolCall` event. -/
theorem translate2_no_toolCall (fs : List InFrame) (e : EndKind) :
    ∀ x ∈ (translate2 fs e).1, x.isToolCall = false := by
  induction fs with
  | nil => cases e <;> simp [translate2]
  | cons f rest ih =>
      rcases hfe : frameEvents2 f with ⟨evs, stop⟩
      have hevs : ∀ x ∈ evs, x.isToolCall = false := by
        intro x hx
        exact (frameEvents2_shape f x (by rw [hfe]; exact hx)).1
      cases stop with
      | true =>
          simp only [translate2, hfe, if_pos]
          exact hevs
      | false =>
          rcases htr : translate2 rest e with ⟨evs', o⟩
          simp only [translate2, hfe, htr]
          simp only [Bool.false_eq_true, if_false]
          intro x hx
          rcases List.mem_append.mp hx with hx | hx
          · exact hevs x hx
          · have := ih
            rw [htr] at this
            exact this x hx

/-- A first-implementation request whose channel errors before any terminal
frame propagates the exception (it does not return normally, and yields no
terminal event). -/
theorem translate1_errored_threw (fs : List InFrame)
    (h : ∀ f ∈ fs, (frameEvents1 f).2 = false) :
    (translate1 fs EndKind.errored).2 = Outcome.threw := by
  induction fs with
  | nil => rfl
  | cons f rest ih =>
      rcases hfe : frameEvents1 f with ⟨evs, stop⟩
      have hstop : stop = false := by
        have := h f (by simp)
        rw [hfe] at this
        exact this
      subst hstop
      have ih' := ih (fun g hg => h g (by simp [hg]))
      rcases htr : translate1 rest EndKind.errored with ⟨evs', o⟩
      rw [htr] at ih'
      simp only at ih'
      subst ih'
      simp [translate1, hfe, htr]

/-- A second-implementation request whose channel errors before any
terminal frame propagates the exception. -/
theorem translate2_errored_threw (fs : List InFrame)
    (h : ∀ f ∈ fs, (frameEvents2 f).2 = false) :
    (translate2 fs EndKind.errored).2 = Outcome.threw := by
  induction fs with
  | nil => rfl
  | cons f rest ih =>
      rcases hfe : frameEvents2 f with ⟨evs, stop⟩
      have hstop : stop = false := by
        have := h f (by simp)
        rw [hfe] at this
        exact this
      subst hstop
      have ih' := ih (fun g hg => h g (by simp [hg]))
      rcases htr : translate2 rest EndKind.errored with ⟨evs', o⟩
      rw [htr] at ih'
      simp only at ih'
      subst ih'
      simp [translate2, hfe, htr]

/-- The first implementation's read loop never inspects the frame's
correlation id: the events for a CONVERSATION frame are independent of its
`metadata.messageId`. -/
theorem frameEvents1_id_blind (id id' : String) (a : ConvAction) (d : ConvData) :
    frameEvents1 (InFrame.conversation id a d) =
      frameEvents1 (InFrame.conversation id' a d) := rfl

/-- Every delivery made by one distributor iteration is the processed frame
itself, sent to the channel registered under the id the frame carries. -/
theorem demuxStep_deliveries (reg : List String) (f : InFrame) (b : String) (g : InFrame)
    (h : (b, g) ∈ (demuxStep reg f).2) : g = f ∧ frameRouteId f = some b := by
  cases hr : frameRouteId f with
  | none => simp [demuxStep, hr] at h
  | some id =>
      simp only [demuxStep, hr] at h
      by_cases hc : reg.contains id = true
      · rw [if_pos hc] at h
        by_cases hterm : isTerminalChunk f = true
        · rw [if_pos hterm] at h
          simp at h
          exact ⟨h.2, by rw [h.1]⟩
        · rw [if_neg hterm] at h
          simp at h
          exact ⟨h.2, by rw [h.1]⟩
      · rw [if_neg hc] at h
        simp at h

/-- Every delivery made by a distributor run carries the id of the channel
that received it. -/
theorem demuxRun_deliveries (reg : List String) (fs : List InFrame) (b : String)
    (g : InFrame) (h : (b, g) ∈ (demuxRun reg fs).2) : frameRouteId g = some b := by
  induction fs generalizing reg with
  | nil => simp [demuxRun] at h
  | cons f rest ih =>
      rcases hstep : demuxStep reg f with ⟨r1, d1⟩
      rcases hrun : demuxRun r1 rest with ⟨r2, d2⟩
      simp only [demuxRun, hstep, hrun] at h
      rcases List.mem_append.mp h with h | h
      · obtain ⟨hg, hid⟩ := demuxStep_deliveries reg f b g (by rw [hstep]; exact h)
        rw [hg]; exact hid
      · exact ih r1 (by rw [hrun]; exact h)

/-- A trace of parsed messages and successfully-reconnected disconnects
leaves the first implementation's inbound sequence running, delivers every
frame, and makes exactly one reconnect attempt per disconnect. -/
theorem supRun1_good (evts : List WsEvent) (h : ∀ x ∈ evts, wsGoodEvt x = true) :
    supRun1 evts = (wsFrames evts, SupEnd.running, wsCloseCount evts) := by
  induction evts with
  | nil => rfl
  | cons x rest ih =>
      have hx := h x (by simp)
      have ih' := ih (fun y hy => h y (by simp [hy]))
      cases x with
      | message p =>
          cases p with
          | some f => simp [supRun1, wsFrames, wsCloseCount, List.countP_cons, ih']
          | none => simp [wsGoodEvt] at hx
      | errorEvt => simp [wsGoodEvt] at hx
      | closeEvt r =>
          cases r with
          | true => simp [supRun1, wsFrames, wsCloseCount, List.countP_cons, ih']
          | false => simp [wsGoodEvt] at hx

/-- A second-implementation request whose channel is closed (rather than
errored) always returns normally, whether or not a DONE frame arrived. -/
theorem translate2_closed_returns (fs : List InFrame) :
    (translate2 fs EndKind.closed).2 = Outcome.returned := by
  induction fs with
  | nil => rfl
  | cons f rest ih =>
      rcases hfe : frameEvents2 f with ⟨evs, stop⟩
      cases stop with
      | true => simp [translate2, hfe]
      | false =>
          rcases htr : translate2 rest EndKind.closed with ⟨evs', o⟩
          rw [htr] at ih
          simp only at ih
          subst ih
          simp [translate2, hfe, htr]

/-- Under the no-terminal-frame hypothesis of `translate1_closed_eq`, the
events coming from the frames themselves contain no `disconnected`. -/
theorem translate1_flat_no_disconnected (fs : List InFrame)
    (h : ∀ f ∈ fs, (frameEvents1 f).2 = false) :
    ∀ e ∈ fs.flatMap (fun f => (frameEvents1 f).1), ¬(e = Event.disconnected) := by
  intro e he hd
  subst hd
  obtain ⟨f, hf, hef⟩ := List.mem_flatMap.mp he
  have := frameEvents1_nonterminal f (h f hf) _ hef
  simp [Event.isTerminal] at this

/-! ## Claims -/

/-- C1 counterexample: the first implementation has no demultiplexer — all
concurrent `sendMessage` calls read the one shared `#streamReader`
(src/chat.ts line 230) and the read loop never inspects the correlation id,
so with two requests in flight a ConversationChunk carrying request A's
correlation id whose read is won by request B is delivered as an event on
B's sequence: here B yields `textDelta "hi"` from a frame carrying id
"A". -/
theorem c1_counterexample :
    Event.textDelta "hi" ∈
      (translate1
        (sharedConsume "B"
          [("B", InFrame.conversation "A" ConvAction.aiAnswer
                  ⟨ConvStatus.append, [InContent.text (some "hi")]⟩)])
        EndKind.closed).1 := by decide

/-- C1 (amended): in the second implementation the demultiplexer routes
each ConversationChunk/ProtocolError frame only to the pending request
registered under the correlation id the frame carries, so a frame carrying
A's id is never delivered on B's channel when A ≠ B; the first
implementation performs no correlation-based routing at all — its read loop
is blind to the frame's correlation id, and concurrent requests share one
reader. -/
theorem c1_isolation_amended (reg : List String) (frames : List InFrame)
    (a b : String) (f : InFrame) (hf : frameRouteId f = some a) (hab : a ≠ b)
    (id id' : String) (act : ConvAction) (d : ConvData) :
    (b, f) ∉ (demuxRun reg frames).2
      ∧ frameEvents1 (InFrame.conversation id act d) =
          frameEvents1 (InFrame.conversation id' act d) := by
  refine ⟨?_, frameEvents1_id_blind id id' act d⟩
  intro hmem
  have hrt := demuxRun_deliveries reg frames b f hmem
  rw [hf] at hrt
  exact hab (Option.some.inj hrt)

/-- C1 witness: concrete instantiation of `c1_isolation_amended`. -/
theorem c1_isolation_witness :
    frameRouteId (InFrame.conversation "A" ConvAction.aiAnswer
        ⟨ConvStatus.append, []⟩) = some "A"
    ∧ "A" ≠ "B"
    ∧ (("B", InFrame.conversation "A" ConvAction.aiAnswer
          ⟨ConvStatus.append, []⟩) ∉
        (demuxRun ["A", "B"]
          [InFrame.conversation "A" ConvAction.aiAnswer ⟨ConvStatus.append, []⟩]).2
      ∧ frameEvents1 (InFrame.conversation "X" ConvAction.event ⟨ConvStatus.append, []⟩) =
          frameEvents1 (InFrame.conversation "Y" ConvAction.event ⟨ConvStatus.append, []⟩)) :=
  ⟨by decide, by decide,
    c1_isolation_amended ["A", "B"]
      [InFrame.conversation "A" ConvAction.aiAnswer ⟨ConvStatus.append, []⟩]
      "A" "B"
      (InFrame.conversation "A" ConvAction.aiAnswer ⟨ConvStatus.append, []⟩)
      (by decide) (by decide) "X" "Y" ConvAction.event ⟨ConvStatus.append, []⟩⟩

/-- C2 counterexample: a request whose inbound stream errors before any
frame (first implementation, e.g. after a failed reconnect) yields zero
terminal events — the generator throws instead — so the event sequence does
not contain exactly one terminal event. -/
theorem c2_counterexample :
    terminalCount (translate1 [] EndKind.errored).1 ≠ 1 := by decide

/-- C2 (amended): in both implementations no event is ever yielded after a
terminal event (hence at most one terminal event occurs); the first
implementation yields exactly one terminal event whenever the request's
channel ends without a thrown error, but a sequence ending in a stream
error — or, in the second implementation, a channel close without a DONE
frame — ends with no terminal event. -/
theorem c2_terminal_amended (fs fs' : List InFrame) (e : EndKind) :
    noEventAfterTerminal (translate1 fs e).1 = true
    ∧ noEventAfterTerminal (translate2 fs e).1 = true
    ∧ terminalCount (translate1 fs' EndKind.closed).1 = 1
    ∧ terminalCount (translate2 fs e).1 ≤ 1 :=
  ⟨translate1_noEventAfterTerminal fs e, translate2_noEventAfterTerminal fs e,
    translate1_closed_terminalCount fs',
    noEventAfterTerminal_count _ (translate2_noEventAfterTerminal fs e)⟩

/-- C3 counterexample: in the second implementation a request whose channel
closes without a terminal frame (registry entry closed on session close)
yields no `disconnected` event at all — the generator just `break`s — so it
does not yield exactly one Disconnected event. -/
theorem c3_counterexample :
    disconnectedCount (translate2 [] EndKind.closed).1 ≠ 1 := by decide

/-- C3 (amended): when a request's inbound channel closes without a
terminal frame, the first implementation yields its buffered events
followed by exactly one `disconnected` and returns, while the second
implementation's sequence simply ends: it never contains a `disconnected`
event and the generator returns without one.  After a session close the
distributor's `finally` block leaves the registry empty and closes the
channel of each of the still-live requests. -/
theorem c3_disconnect_amended (fs fs2 : List InFrame) (reg : List String)
    (h1 : ∀ f ∈ fs, (frameEvents1 f).2 = false) :
    translate1 fs EndKind.closed =
      (fs.flatMap (fun f => (frameEvents1 f).1) ++ [Event.disconnected],
        Outcome.returned)
    ∧ disconnectedCount (translate1 fs EndKind.closed).1 = 1
    ∧ Event.disconnected ∉ (translate2 fs2 EndKind.closed).1
    ∧ (translate2 fs2 EndKind.closed).2 = Outcome.returned
    ∧ (demuxFinalize reg).1 = []
    ∧ (∀ id ∈ reg, (id, EndKind.closed) ∈ (demuxFinalize reg).2) := by
  refine ⟨translate1_closed_eq fs h1, ?_, translate2_no_disconnected fs2 EndKind.closed,
    translate2_closed_returns fs2, rfl, ?_⟩
  · rw [translate1_closed_eq fs h1]
    simp only [disconnectedCount, List.countP_append]
    have hz : (fs.flatMap (fun f => (frameEvents1 f).1)).countP
        (fun e => decide (e = Event.disconnected)) = 0 := by
      refine List.countP_eq_zero.mpr ?_
      intro x hx
      simpa using translate1_flat_no_disconnected fs h1 x hx
    rw [hz]
    rfl
  · intro id hid
    simp [demuxFinalize]
    exact hid

/-- C3 witness: concrete instantiation of `c3_disconnect_amended`. -/
theorem c3_disconnect_witness :
    (∀ f ∈ ([InFrame.ack] : List InFrame), (frameEvents1 f).2 = false)
    ∧ (translate1 [InFrame.ack] EndKind.closed =
        ([InFrame.ack].flatMap (fun f => (frameEvents1 f).1) ++ [Event.disconnected],
          Outcome.returned)
      ∧ disconnectedCount (translate1 [InFrame.ack] EndKind.closed).1 = 1
      ∧ Event.disconnected ∉ (translate2 [] EndKind.closed).1
      ∧ (translate2 [] EndKind.closed).2 = Outcome.returned
      ∧ (demuxFinalize ["A", "B"]).1 = []
      ∧ (∀ id ∈ (["A", "B"] : List String),
          (id, EndKind.closed) ∈ (demuxFinalize ["A", "B"]).2)) :=
  ⟨by decide, c3_disconnect_amended [InFrame.ack] [] ["A", "B"] (by decide)⟩

/-- C4 counterexample: the second implementation makes no reconnect attempt
on a disconnect — its `onclose` handler closes the inbound stream
(src/chat.ts lines 410-412) — so it is not the case that exactly one
reconnect attempt is made. -/
theorem c4_counterexample :
    (supRun2 [WsEvent.closeEvt true]).2.2 ≠ 1 := by decide

/-- C4 (amended): the first implementation makes exactly one reconnect
attempt per disconnect with no retry loop or backoff — over any trace of
parsed messages and successfully-reconnected disconnects the inbound
sequence keeps running, delivers every frame, and the attempt count equals
the disconnect count; a failed reconnect ends the sequence fatally after
that single attempt, and a live request on the errored stream terminates by
a thrown exception (no terminal event is yielded).  The second
implementation makes no reconnect attempt at all: a disconnect closes the
inbound sequence. -/
theorem c4_reconnect_amended (evts evts' : List WsEvent) (r : Bool)
    (fs : List InFrame)
    (hgood : ∀ x ∈ evts, wsGoodEvt x = true)
    (hnt : ∀ f ∈ fs, (frameEvents1 f).2 = false) :
    supRun1 evts = (wsFrames evts, SupEnd.running, wsCloseCount evts)
    ∧ supRun1 (WsEvent.closeEvt false :: evts') = ([], SupEnd.errored, 1)
    ∧ (translate1 fs EndKind.errored).2 = Outcome.threw
    ∧ supRun2 (WsEvent.closeEvt r :: evts') = ([], SupEnd.closedEnd, 0) := by
  refine ⟨supRun1_good evts hgood, rfl, translate1_errored_threw fs hnt, ?_⟩
  cases r <;> rfl

/-- C4 witness: concrete instantiation of `c4_reconnect_amended`. -/
theorem c4_reconnect_witness :
    (∀ x ∈ [WsEvent.message (some InFrame.ack), WsEvent.closeEvt true],
        wsGoodEvt x = true)
    ∧ (∀ f ∈ ([InFrame.ack] : List InFrame), (frameEvents1 f).2 = false)
    ∧ (supRun1 [WsEvent.message (some InFrame.ack), WsEvent.closeEvt true] =
        (wsFrames [WsEvent.message (some InFrame.ack), WsEvent.closeEvt true],
          SupEnd.running,
          wsCloseCount [WsEvent.message (some InFrame.ack), WsEvent.closeEvt true])
      ∧ supRun1 (WsEvent.closeEvt false :: []) = ([], SupEnd.errored, 1)
      ∧ (translate1 [InFrame.ack] EndKind.errored).2 = Outcome.threw
      ∧ supRun2 (WsEvent.closeEvt true :: []) = ([], SupEnd.closedEnd, 0)) :=
  ⟨by decide, by decide,
    c4_reconnect_amended [WsEvent.message (some InFrame.ack), WsEvent.closeEvt true]
      [] true [InFrame.ack] (by decide) (by decide)⟩

/-- C5: an inbound ConversationChunk or ProtocolError frame whose
correlation id has no live registry entry is dropped by the demultiplexer
(src/chat.ts lines 432-444: the `has` guard has no else branch): the
registry is returned unchanged — no entry is created — and the frame is
delivered to no request's channel, so it never appears on any caller's
event sequence. -/
theorem c5_unknown_id_dropped (reg : List String) (f : InFrame) (id : String)
    (hroute : frameRouteId f = some id) (hdead : reg.contains id = false) :
    demuxStep reg f = (reg, []) := by
  have hmem : id ∉ reg := by simpa using hdead
  simp [demuxStep, hroute, hmem]

/-- C5 witness: a chunk carrying the unknown id "A" against a registry
holding only "B". -/
theorem c5_unknown_id_witness :
    frameRouteId (InFrame.conversation "A" ConvAction.aiAnswer
        ⟨ConvStatus.append, [InContent.text (some "hi")]⟩) = some "A"
    ∧ (["B"] : List String).contains "A" = false
    ∧ demuxStep ["B"]
        (InFrame.conversation "A" ConvAction.aiAnswer
          ⟨ConvStatus.append, [InContent.text (some "hi")]⟩) = (["B"], []) :=
  ⟨by decide, by decide,
    c5_unknown_id_dropped ["B"]
      (InFrame.conversation "A" ConvAction.aiAnswer
        ⟨ConvStatus.append, [InContent.text (some "hi")]⟩)
      "A" (by decide) (by decide)⟩

/-- C6 counterexample: a single malformed inbound payload ends the whole
inbound sequence — the first implementation's `onmessage` handler rejects
and the controller is errored (src/chat.ts lines 76-80, 94-98) — so a
well-formed frame arriving right after the malformed one is never
delivered. -/
theorem c6_counterexample :
    (supRun1 [WsEvent.message none, WsEvent.message (some InFrame.ack)]).2.1 =
        SupEnd.errored
    ∧ (supRun1 [WsEvent.message none, WsEvent.message (some InFrame.ack)]).1 = [] :=
  ⟨rfl, rfl⟩

/-- C6 (amended): a malformed inbound payload is not skipped — in both
implementations it errors the inbound sequence (policy (a), fail-fast): no
frame at or after the malformed one is delivered, no reconnect is
attempted, and in the second implementation every concurrently in-flight
request is terminated by a thrown exception rather than surviving. -/
theorem c6_parse_amended (evts : List WsEvent) (fs : List InFrame)
    (h : ∀ f ∈ fs, (frameEvents2 f).2 = false) :
    supRun1 (WsEvent.message none :: evts) = ([], SupEnd.errored, 0)
    ∧ supRun2 (WsEvent.message none :: evts) = ([], SupEnd.errored, 0)
    ∧ (translate2 fs EndKind.errored).2 = Outcome.threw :=
  ⟨rfl, rfl, translate2_errored_threw fs h⟩

/-- C6 witness: concrete instantiation of `c6_parse_amended`. -/
theorem c6_parse_witness :
    (∀ f ∈ ([] : List InFrame), (frameEvents2 f).2 = false)
    ∧ (supRun1 (WsEvent.message none :: [WsEvent.message (some InFrame.ack)]) =
        ([], SupEnd.errored, 0)
      ∧ supRun2 (WsEvent.message none :: [WsEvent.message (some InFrame.ack)]) =
        ([], SupEnd.errored, 0)
      ∧ (translate2 [] EndKind.errored).2 = Outcome.threw) :=
  ⟨by decide, c6_parse_amended [WsEvent.message (some InFrame.ack)] [] (by decide)⟩

/-- C7: for an EVENT-channel plain-text content item of an APPEND chunk,
both implementations yield exactly one `reasoningStart` (and no
`textDelta`) when the text is the "thinking" sentinel, and yield nothing
for the "searching" sentinel or any other event-channel text. -/
theorem c7_sentinel (t : Option String) (id : String)
    (hne : t ≠ some thinkingSentinel) :
    processContent1 ConvAction.event (InContent.text (some thinkingSentinel)) =
        [Event.reasoningStart]
    ∧ processContent2 ConvAction.event (InContent.text (some thinkingSentinel)) =
        [Event.reasoningStart]
    ∧ processContent1 ConvAction.event (InContent.text t) = []
    ∧ processContent2 ConvAction.event (InContent.text t) = []
    ∧ frameEvents1 (InFrame.conversation id ConvAction.event
        ⟨ConvStatus.append, [InContent.text (some thinkingSentinel)]⟩) =
        ([Event.reasoningStart], false)
    ∧ frameEvents2 (InFrame.conversation id ConvAction.event
        ⟨ConvStatus.append, [InContent.text (some thinkingSentinel)]⟩) =
        ([Event.reasoningStart], false) := by
  refine ⟨by decide, by decide, ?_, ?_, ?_, ?_⟩
  · simp [processContent1, hne]
  · simp [processContent2, hne]
  · simp [frameEvents1, processContent1]
  · simp [frameEvents2, processContent2]

/-- C7 witness: the "searching" sentinel as the other event-channel
text. -/
theorem c7_sentinel_witness :
    some searchingSentinel ≠ some thinkingSentinel
    ∧ (processContent1 ConvAction.event (InContent.text (some thinkingSentinel)) =
        [Event.reasoningStart]
      ∧ processContent2 ConvAction.event (InContent.text (some thinkingSentinel)) =
        [Event.reasoningStart]
      ∧ processContent1 ConvAction.event (InContent.text (some searchingSentinel)) = []
      ∧ processContent2 ConvAction.event (InContent.text (some searchingSentinel)) = []
      ∧ frameEvents1 (InFrame.conversation "m" ConvAction.event
          ⟨ConvStatus.append, [InContent.text (some thinkingSentinel)]⟩) =
          ([Event.reasoningStart], false)
      ∧ frameEvents2 (InFrame.conversation "m" ConvAction.event
          ⟨ConvStatus.append, [InContent.text (some thinkingSentinel)]⟩) =
          ([Event.reasoningStart], false)) :=
  ⟨by decide, c7_sentinel (some searchingSentinel) "m" (by decide)⟩

/-- C8 counterexample: the second implementation's read loop handles
TOOL_CALL chunks in the same branch as APPEND (src/chat.ts lines 561-564),
so a TOOL_CALL chunk holding one TEXT content yields a `textDelta` — zero
`toolCall` events — instead of exactly one ToolCall event. -/
theorem c8_counterexample :
    ((frameEvents2 (InFrame.conversation "m" ConvAction.aiAnswer
        ⟨ConvStatus.toolCall, [InContent.text (some "x")]⟩)).1.countP
          (fun e => e.isToolCall)) = 0
    ∧ (frameEvents2 (InFrame.conversation "m" ConvAction.aiAnswer
        ⟨ConvStatus.toolCall, [InContent.text (some "x")]⟩)).1 =
        [Event.textDelta "x"] := by
  exact ⟨by decide, by decide⟩

/-- C8 (amended): the first implementation yields, for every TOOL_CALL
chunk, exactly one `toolCall` event carrying the chunk's content array
verbatim and nothing else; the second implementation instead processes
TOOL_CALL chunks like APPEND chunks — per-content text/reasoning events —
and never yields a `toolCall` event on any input. -/
theorem c8_toolcall_amended (id : String) (a : ConvAction) (cs : List InContent)
    (fs : List InFrame) (e : EndKind)
    (ha : a = ConvAction.aiAnswer ∨ a = ConvAction.event) :
    frameEvents1 (InFrame.conversation id a ⟨ConvStatus.toolCall, cs⟩) =
        ([Event.toolCall cs], false)
    ∧ frameEvents2 (InFrame.conversation id a ⟨ConvStatus.toolCall, cs⟩) =
        (cs.flatMap (processContent2 a), false)
    ∧ (∀ x ∈ (translate2 fs e).1, x.isToolCall = false) := by
  rcases ha with h | h <;> subst h <;>
    exact ⟨rfl, rfl, translate2_no_toolCall fs e⟩

/-- C8 witness: concrete instantiation of `c8_toolcall_amended`. -/
theorem c8_toolcall_witness :
    (ConvAction.aiAnswer = ConvAction.aiAnswer ∨ ConvAction.aiAnswer = ConvAction.event)
    ∧ (frameEvents1 (InFrame.conversation "m" ConvAction.aiAnswer
          ⟨ConvStatus.toolCall, [InContent.text (some "x")]⟩) =
        ([Event.toolCall [InContent.text (some "x")]], false)
      ∧ frameEvents2 (InFrame.conversation "m" ConvAction.aiAnswer
          ⟨ConvStatus.toolCall, [InContent.text (some "x")]⟩) =
        ([InContent.text (some "x")].flatMap (processContent2 ConvAction.aiAnswer), false)
      ∧ (∀ x ∈ (translate2 [] EndKind.closed).1, x.isToolCall = false)) :=
  ⟨Or.inl rfl,
    c8_toolcall_amended "m" ConvAction.aiAnswer [InContent.text (some "x")] []
      EndKind.closed (Or.inl rfl)⟩

/-- C9: for an APPEND content item of image-generation kind (first
implementation, src/chat.ts lines 268-273) only the first entry of
`imageGens` is considered; an `imageThumbnail` event carrying that entry's
in-progress thumbnail URL is always yielded first, and an `image` event
carrying the final URL is additionally yielded exactly when the entry's
`preview` field holds a (non-empty) URL. -/
theorem c9_image_events (g : ImageGen) (rest : List ImageGen) (a : ConvAction)
    (url : String) :
    processContent1 a (InContent.outputImage (g :: rest)) =
        processContent1 a (InContent.outputImage [g])
    ∧ (processContent1 a (InContent.outputImage (g :: rest))).head? =
        some (Event.imageThumbnail g.thumbnail)
    ∧ (Event.image url ∈ processContent1 a (InContent.outputImage (g :: rest)) ↔
        g.preview = some url ∧ url ≠ "") := by
  refine ⟨rfl, rfl, ?_⟩
  cases hp : g.preview with
  | none => simp [processContent1, strTruthy, hp]
  | some p =>
      by_cases hpe : p = ""
      · subst hpe
        simp [processContent1, strTruthy, hp]
        intro h
        simp [h]
      · simp [processContent1, strTruthy, hp, hpe]
        constructor
        · intro h
          exact ⟨h.symm, by rw [h]; exact hpe⟩
        · intro h
          exact h.1.symm

/-- C10: the second implementation's outbound encoder turns every file
content item into INPUT_FILE with `{src, resourceId, name}` and can never
emit an INPUT_IMAGE item; only the first implementation emits INPUT_IMAGE,
exactly when `file.isImage` is set. -/
theorem c10_file_encoding (f : UploadedFile2) (c : OutItem2) (g g' : UploadedFile1)
    (hg : g.isImage = true) (hg' : g'.isImage = false) :
    encodeContent2 (OutItem2.file f) =
        WireContent.INPUT_FILE f.fileUrl f.fileId f.fileName
    ∧ (∀ s r, encodeContent2 c ≠ WireContent.INPUT_IMAGE s r)
    ∧ encodeContent1 (OutItem1.file g) = WireContent.INPUT_IMAGE g.fileUrl g.fileId
    ∧ encodeContent1 (OutItem1.file g') =
        WireContent.INPUT_FILE g'.fileUrl g'.fileId g'.fileName := by
  refine ⟨rfl, ?_, by simp [encodeContent1, hg], by simp [encodeContent1, hg']⟩
  intro s r
  cases c with
  | text t => simp [encodeContent2]
  | file f' => simp [encodeContent2]

/-- C10 witness: concrete instantiation of `c10_file_encoding`. -/
theorem c10_file_encoding_witness :
    (UploadedFile1.mk "id1" "url1" "pic.png" true).isImage = true
    ∧ (UploadedFile1.mk "id2" "url2" "doc.pdf" false).isImage = false
    ∧ (encodeContent2 (OutItem2.file (UploadedFile2.mk "id3" "url3" "doc.txt")) =
        WireContent.INPUT_FILE "url3" "id3" "doc.txt"
      ∧ (∀ s r, encodeContent2 (OutItem2.text "hello") ≠ WireContent.INPUT_IMAGE s r)
      ∧ encodeContent1 (OutItem1.file (UploadedFile1.mk "id1" "url1" "pic.png" true)) =
          WireContent.INPUT_IMAGE "url1" "id1"
      ∧ encodeContent1 (OutItem1.file (UploadedFile1.mk "id2" "url2" "doc.pdf" false)) =
          WireContent.INPUT_FILE "url2" "id2" "doc.pdf") :=
  ⟨rfl, rfl,
    c10_file_encoding (UploadedFile2.mk "id3" "url3" "doc.txt") (OutItem2.text "hello")
      (UploadedFile1.mk "id1" "url1" "pic.png" true)
      (UploadedFile1.mk "id2" "url2" "doc.pdf" false) rfl rfl⟩

end RakutenAI
